import Mathlib

/-!
Shallow embedding of src/files/mirror.py (ansible-role-service-mirror).

External effects are modelled explicitly:
  * subprocess execution is an oracle `w : Nat -> ProcResult` indexed by a
    global invocation counter (the i-th subprocess.run call in the run
    observes `w i`); a `RunSt` threads the counter and a trace of the
    invocations made (each attempt records the stage tag and argument vector);
  * the filesystem facts consulted by `ensuredir` (os.path.exists, isdir,
    os.access, os.makedirs) are an oracle `fs : String -> FsInfo`;
  * the contents of /etc/redhat-release are `redhatRelease : Option String`
    (`none` when the file does not exist);
  * getpass.getuser() is `currentUser`.
A Python function that can raise an uncaught exception is embedded with an
`Option` result: `none` means the exception propagates.
-/

namespace Mirror

/-- Outcome of one subprocess.run call: `launchOk = false` models the
`except Exception` branch (spawn failure); otherwise the process ran and
produced `returncode` and (when captured) `stdout`. -/
structure ProcResult where
  launchOk : Bool
  returncode : Int
  stdout : String
deriving DecidableEq, Repr

/-- Trace instrumentation: which call site of run_process made an invocation.
Python does not carry this value; it only identifies the call sites of
src/files/mirror.py in the trace. -/
inductive StageTag where
  | precheck
  | stage1
  | final
  | restorecon
  | debmirrorTool
deriving DecidableEq, Repr

/-- One subprocess.run attempt, as recorded in the trace. -/
structure Invocation where
  tag : StageTag
  args : List String
deriving DecidableEq, Repr

/-- Threaded run state: the global subprocess counter and the trace of all
attempts made so far (in order). -/
structure RunSt where
  ctr : Nat
  trace : List Invocation
deriving DecidableEq, Repr

/-- Filesystem facts about one path, as consulted by `ensuredir`. -/
structure FsInfo where
  pathExists : Bool
  isDir : Bool
  writable : Bool
  makedirsOk : Bool
deriving DecidableEq, Repr

/-- The external world of one program run. -/
structure Env where
  w : Nat → ProcResult
  fs : String → FsInfo
  redhatRelease : Option String
  currentUser : String

/-- Embedding of `ensuredir` (mirror.py lines 13-36): check path, create if
needed. Returns (success, error message). -/
def ensuredir (fs : FsInfo) : Bool × Option String :=
  if fs.pathExists && !fs.isDir then (false, some "path must be a directory")
  else if fs.pathExists && !fs.writable then (false, some "path must be writable")
  else if !fs.makedirsOk then (false, some "unable to create path")
  else (true, none)

/-- Whether `pat` occurs at the start of `s` (over strings as char lists). -/
def startsWithChars : List Char → List Char → Bool
  | [], _ => true
  | _ :: _, [] => false
  | p :: ps, c :: cs => p = c && startsWithChars ps cs

/-- Whether `pat` occurs somewhere in `s` (over strings as char lists). -/
def hasSubChars (pat : List Char) : List Char → Bool
  | [] => startsWithChars pat []
  | c :: cs => startsWithChars pat (c :: cs) || hasSubChars pat cs

/-- Python membership test `pat in s` (substring containment). -/
def containsSub (s pat : String) : Bool :=
  hasSubChars pat.toList s.toList

/-- Embedding of `is_redhat_based` (mirror.py lines 39-49), with the contents
of /etc/redhat-release passed in (`none` = file absent). -/
def is_redhat_based (redhatRelease : Option String) : Bool :=
  match redhatRelease with
  | none => false
  | some content =>
    containsSub content "Red Hat" || containsSub content "CentOS" ||
    containsSub content "Fedora" || containsSub content "Rocky Linux" ||
    containsSub content "AlmaLinux"

/-- Python `s.replace(c, r)` for a single-character search string, over
strings as character lists: every occurrence of `c` becomes `r`. -/
def str_replace_char (s : List Char) (c : Char) (r : List Char) : List Char :=
  s.flatMap (fun x => if x = c then r else [x])

/-- The guarded backslash replacement of `quote_arg` (mirror.py lines 56-57):
`if "\x5c" in arg: arg = arg.replace(...)`. -/
def quote_arg_backslash (arg : List Char) : List Char :=
  if arg.contains '\\' then str_replace_char arg '\\' ['\\', '\\'] else arg

/-- The guarded double-quote replacement of `quote_arg` (mirror.py lines
58-59). -/
def quote_arg_escape (arg : List Char) : List Char :=
  if arg.contains '"' then str_replace_char arg '"' ['\\', '"'] else arg

/-- Embedding of the inner `quote_arg` of `args_to_cmdline` (mirror.py lines
53-60), over strings as character lists. -/
def quote_arg (arg : List Char) : List Char :=
  if !arg.contains ' ' && !arg.contains '"' && !arg.contains '\\' &&
     !arg.contains '*' && !arg.contains '|' then arg
  else
    ['"'] ++ quote_arg_escape (quote_arg_backslash arg) ++ ['"']

/-- Embedding of `args_to_cmdline` (mirror.py lines 52-62):
`" ".join(quote_arg(a) for a in args)`. -/
def args_to_cmdline (args : List (List Char)) : List Char :=
  List.intercalate [' '] (args.map quote_arg)

/-- Unconditional backslash doubling, following the spec wording
"every backslash doubled". -/
def doubleBackslashes (s : List Char) : List Char :=
  s.flatMap (fun x => if x = '\\' then ['\\', '\\'] else [x])

/-- Unconditional quote escaping, following the spec wording
"every double-quote escaped with a backslash". -/
def escapeQuotes (s : List Char) : List Char :=
  s.flatMap (fun x => if x = '"' then ['\\', '"'] else [x])

/-- The spec's bare-argument condition: none of space, double-quote,
backslash, asterisk, pipe occurs. -/
def bareArg (s : List Char) : Bool :=
  !s.contains ' ' && !s.contains '"' && !s.contains '\\' &&
  !s.contains '*' && !s.contains '|'

/-- Modelled from the spec: the per-argument quoting rule as the spec words
it — bare when `bareArg`, otherwise double the backslashes, then escape the
double-quotes, then wrap in double quotes. -/
def quote_arg_spec (s : List Char) : List Char :=
  if bareArg s then s
  else ['"'] ++ escapeQuotes (doubleBackslashes s) ++ ['"']

/-- The `result.returncode in retry_codes` guard of run_process: retry only when
a retry-code list was given and contains the code. -/
def retry_eligible (retry_codes : Option (List Int)) (rc : Int) : Bool :=
  match retry_codes with
  | none => false
  | some codes => codes.contains rc

/-- Value of the `result` variable when the `for i in range(retry_count)`
loop of run_process exits. -/
inductive LoopRes where
  | launchFail
  | done (result : Option ProcResult)
deriving DecidableEq, Repr

/-- The retry loop of `run_process` (mirror.py lines 91-105): given the
current `result` (`last`), remaining iterations (`fuel`) and the subprocess
counter, returns how the loop exited and how many subprocess attempts it
made. `launchFail` is the `except` branch (immediate `return False, None`). -/
def rp_loop (w : Nat → ProcResult) (retry_codes : Option (List Int)) :
    Option ProcResult → Nat → Nat → LoopRes × Nat
  | last, 0, _ => (.done last, 0)
  | _, fuel + 1, ctr =>
    let r := w ctr
    if r.launchOk = false then (.launchFail, 1)
    else if r.returncode = 0 then (.done (some r), 1)
    else if retry_eligible retry_codes r.returncode = false then (.done (some r), 1)
    else
      let res := rp_loop w retry_codes (some r) fuel (ctr + 1)
      (res.1, res.2 + 1)

/-- The tail of `run_process` after the loop (mirror.py lines 107-115):
translate how the loop exited into the returned pair. `none` is the raise on
`result is None` (reachable only when `range(retry_count)` was empty). -/
def rp_result : LoopRes → Bool → Option (Bool × Option String)
  | .launchFail, _ => some (false, none)
  | .done none, _ => none
  | .done (some r), capture_output =>
    if r.returncode ≠ 0 then some (false, none)
    else some (true, if capture_output then some r.stdout else none)

/-- Embedding of `run_process` (mirror.py lines 65-115). The first component
is `none` when the function raises, otherwise `some (success, stdout)`.
Every attempt appends one `Invocation` with this call site's `tag`. -/
def run_process (env : Env) (tag : StageTag) (args : List String)
    (capture_output : Bool) (retry_codes : Option (List Int))
    (retry_count : Option Int) (st : RunSt) :
    Option (Bool × Option String) × RunSt :=
  let rcount : Int := retry_count.getD 5
  let fuel : Nat := rcount.toNat
  let lr := rp_loop env.w retry_codes none fuel st.ctr
  (rp_result lr.1 capture_output,
   ⟨st.ctr + lr.2, st.trace ++ List.replicate lr.2 ⟨tag, args⟩⟩)

/-- Python `s.endswith("/")`, over the string's characters. -/
def ends_with_slash (s : String) : Bool :=
  match s.toList.getLast? with
  | some c => c = '/'
  | none => false

/-- Trailing-slash normalization applied by `rsync` and `debmirror` to their
path arguments. -/
def norm_dir (s : String) : String :=
  if ends_with_slash s then s else s ++ "/"

/-- Argument vector of the precheck dry-run (mirror.py lines 163-170),
with `remote` and `dest` already normalized. -/
def precheck_args (remote dest precheck_file : String) : List String :=
  ["rsync", "--no-motd", "--dry-run", "--out-format=%n",
   remote ++ "/" ++ precheck_file, dest ++ "/" ++ precheck_file]

/-- The `common_args` list of `rsync` (mirror.py lines 181-198). -/
def common_args (bwlimit_mbps : Int) (exclude : Option (List String)) : List String :=
  ["rsync", "--recursive", "--links", "--perms", "--times", "--devices",
   "--specials", "--sparse", "--partial", "--hard-links", "--exclude=*.~tmp~",
   "--delete-excluded", "--bwlimit=" ++ toString (bwlimit_mbps * 1024)] ++
  (match exclude with
   | none => []
   | some patterns => patterns.map (fun p => "--exclude=" ++ p))

/-- The `restorecon -R dest` call (mirror.py lines 215-216 and 272-273): the
result is discarded (`_, _ = run_process(...)`), `success` is returned
unchanged. A raise inside the call would propagate, hence the `none` case. -/
def restorecon_step (env : Env) (dest : String) (success : Bool) (st : RunSt) :
    Option Bool × RunSt :=
  match run_process env .restorecon ["restorecon", "-R", dest] false none none st with
  | (none, st1) => (none, st1)
  | (some _, st1) => (some success, st1)

/-- Final stage of `rsync` (mirror.py lines 209-218): the final transfer with
delete-delay/delay-updates, then the conditional SELinux restore. `remote`
and `dest` are normalized, `cargs` is the already-built common argument list. -/
def rsync_final (env : Env) (cargs : List String) (remote dest : String)
    (st : RunSt) : Option Bool × RunSt :=
  match run_process env .final (cargs ++ ["--delete-delay", "--delay-updates"] ++ [remote, dest])
      false (some [10]) none st with
  | (none, st1) => (none, st1)
  | (some (success, _), st1) =>
    if success && is_redhat_based env.redhatRelease then
      restorecon_step env dest success st1
    else (some success, st1)

/-- Python truthiness of the `firststage_exclude` value
(`if firststage_exclude:`): true exactly for a present, nonempty list. -/
def truthy_list (l : Option (List String)) : Bool :=
  match l with
  | some (_ :: _) => true
  | _ => false

/-- Transfer phase of `rsync` (mirror.py lines 181-218): optional first stage
(entered exactly when `firststage_exclude` is truthy, i.e. a nonempty list),
then the final stage. `remote` and `dest` are normalized. -/
def rsync_transfer (env : Env) (remote dest : String) (bwlimit_mbps : Int)
    (firststage_exclude : Option (List String)) (exclude : Option (List String))
    (st : RunSt) : Option Bool × RunSt :=
  let cargs := common_args bwlimit_mbps exclude
  match firststage_exclude with
  | some (p :: ps) =>
    let extra_exclude := (p :: ps).map (fun q => "--exclude=" ++ q)
    (match run_process env .stage1 (cargs ++ extra_exclude ++ [remote, dest])
        false (some [10]) none st with
     | (none, st1) => (none, st1)
     | (some (false, _), st1) => (some false, st1)
     | (some (true, _), st1) => rsync_final env cargs remote dest st1)
  | _ => rsync_final env cargs remote dest st

/-- Embedding of `rsync` (mirror.py lines 118-218): destination check,
normalization, optional precheck (skip on empty dry-run output), then the
transfer phase. -/
def rsync (env : Env) (remote dest : String) (bwlimit_mbps : Int)
    (precheck_file : Option String) (firststage_exclude : Option (List String))
    (exclude : Option (List String)) (st : RunSt) : Option Bool × RunSt :=
  if (ensuredir (env.fs dest)).1 = false then (some false, st)
  else
    match precheck_file with
    | some pf =>
      (match run_process env .precheck (precheck_args (norm_dir remote) (norm_dir dest) pf)
          true (some [10]) none st with
       | (none, st1) => (none, st1)
       | (some (false, _), st1) => (some false, st1)
       | (some (true, out), st1) =>
         (match out with
          | none => (some true, st1)
          | some s =>
            if s.length = 0 then (some true, st1)
            else rsync_transfer env (norm_dir remote) (norm_dir dest) bwlimit_mbps firststage_exclude exclude st1))
    | none => rsync_transfer env (norm_dir remote) (norm_dir dest) bwlimit_mbps firststage_exclude exclude st

/-- Argument vector of the debmirror invocation (mirror.py lines 254-269),
with `dest` already normalized. -/
def debmirror_args (host remote_dir dest : String) (dists arch sections : List String)
    (bwlimit_mbps : Int) : List String :=
  ["debmirror", "--method=rsync", "--diff=none", "--host=" ++ host,
   "--root=" ++ remote_dir, "--dist=" ++ String.intercalate "," dists,
   "--arch=" ++ String.intercalate "," arch,
   "--section=" ++ String.intercalate "," sections,
   "--rsync-batch=10000", "--no-check-gpg",
   "--rsync-options=-aIL --partial --bwlimit=" ++ toString (bwlimit_mbps * 1024),
   dest]

/-- Embedding of `debmirror` (mirror.py lines 220-275). -/
def debmirror (env : Env) (host remote_dir dest : String)
    (dists arch sections : List String) (bwlimit_mbps : Int) (st : RunSt) :
    Option Bool × RunSt :=
  if (ensuredir (env.fs dest)).1 = false then (some false, st)
  else
    match run_process env .debmirrorTool
        (debmirror_args host remote_dir (norm_dir dest) dists arch sections bwlimit_mbps)
        false none none st with
    | (none, st1) => (none, st1)
    | (some (success, _), st1) =>
      if success && is_redhat_based env.redhatRelease then
        restorecon_step env (norm_dir dest) success st1
      else (some success, st1)

/-- A config section as the configparser section proxy presents it: a key to
value map (DEFAULT-section keys already appended as fallback). -/
abbrev Sect := List (String × String)

/-- Python membership test `key in section`. -/
def cfgHas (c : Sect) (k : String) : Bool :=
  (c.lookup k).isSome

/-- Python subscript `section[key]` where the key is known present. -/
def cfgGet (c : Sect) (k : String) : String :=
  ((c.lookup k).getD "")

/-- Embedding of `mirror_sect` (mirror.py lines 278-333). The first component
is `none` when an uncaught exception propagates: the only such case is the
unchecked `config["deb_dists"]` / `config["deb_arch"]` / `config["deb_sections"]`
subscripting, which raises KeyError when the key is absent. -/
def mirror_sect (env : Env) (sect : Sect) (section_name : String)
    (bwlimit_mbps : Int) (st : RunSt) : Option Bool × RunSt :=
  if cfgHas sect "name" = false then (some false, st)
  else if cfgHas sect "type" = false then (some false, st)
  else if cfgHas sect "host" = false then (some false, st)
  else if cfgHas sect "remote_dir" = false then (some false, st)
  else if cfgHas sect "dest" = false then (some false, st)
  else if cfgGet sect "type" = "rsync" then
    let precheck_file := sect.lookup "rsync_precheck_file"
    let exclude := (sect.lookup "rsync_exclude").map (fun s => s.splitOn ",")
    let firststage_exclude := (sect.lookup "rsync_firststage_exclude").map (fun s => s.splitOn ",")
    rsync env ("rsync://" ++ cfgGet sect "host" ++ "/" ++ cfgGet sect "remote_dir")
      (cfgGet sect "dest") bwlimit_mbps precheck_file firststage_exclude exclude st
  else if cfgGet sect "type" = "debmirror" then
    match sect.lookup "deb_dists" with
    | none => (none, st)
    | some dists =>
      match sect.lookup "deb_arch" with
      | none => (none, st)
      | some arch =>
        match sect.lookup "deb_sections" with
        | none => (none, st)
        | some sections =>
          debmirror env (cfgGet sect "host") (cfgGet sect "remote_dir")
            (cfgGet sect "dest") (dists.splitOn ",") (arch.splitOn ",")
            (sections.splitOn ",") bwlimit_mbps st
  else (some false, st)

/-- Models Python `int(s)` on plain decimal strings (optional sign followed
by digits): `none` models ValueError (an uncaught exception in `mirror`). -/
def digitsVal : List Char → Nat → Option Nat
  | [], acc => some acc
  | c :: cs, acc =>
    if c.isDigit then digitsVal cs (acc * 10 + (c.toNat - 48)) else none

/-- See `digitsVal`: Python `int()` over an optionally signed digit string. -/
def pyInt (s : String) : Option Int :=
  match s.toList with
  | [] => none
  | '-' :: rest => if rest = [] then none else (digitsVal rest 0).map (fun n => -(n : Int))
  | '+' :: rest => if rest = [] then none else (digitsVal rest 0).map (fun n => (n : Int))
  | l => (digitsVal l 0).map (fun n => (n : Int))

/-- The parsed configuration file as `mirror` consumes it: whether
`config.read` succeeded, the DEFAULT section, and the non-DEFAULT sections
(label, raw key/value pairs) in file order. configparser merges DEFAULT keys
into every section proxy, which the embedding does at lookup time by
appending `defaults` behind each section's own pairs. -/
structure MirrorConfig where
  readOk : Bool
  defaults : Sect
  sections : List (String × Sect)

/-- The display name `mirror` uses for a section (mirror.py lines 375-378):
the `name` value when present, else the section label. -/
def displayName (label : String) (sect : Sect) : String :=
  if cfgHas sect "name" then cfgGet sect "name" else label

/-- Characterizes (purely from the section contents) when `mirror_sect`
raises an uncaught exception: a debmirror-typed section that passes all five
presence checks but is missing one of the unchecked `deb_dists` / `deb_arch`
/ `deb_sections` keys. -/
def sect_raises (sect : Sect) : Bool :=
  cfgHas sect "name" && cfgHas sect "type" && cfgHas sect "host" &&
  cfgHas sect "remote_dir" && cfgHas sect "dest" &&
  (cfgGet sect "type" == "debmirror") &&
  !(cfgHas sect "deb_dists" && cfgHas sect "deb_arch" && cfgHas sect "deb_sections")

/-- Result of a whole `mirror` run. `result = none` models an uncaught
exception aborting the run. `failed` is the `failed_mirrors` list,
`outcomes` records (display name, success) per attempted target in order,
and `attempted` the labels of sections for which `mirror_sect` was called
(both instrumentation, not Python values). -/
structure MirrorOut where
  result : Option Bool
  failed : List String
  outcomes : List (String × Bool)
  attempted : List String
  st : RunSt

/-- The per-section loop of `mirror` (mirror.py lines 371-381). Returns
`none` for the failed/outcome data when a `mirror_sect` call raises (the
exception propagates and the remaining sections are never visited). -/
def mirror_loop (env : Env) (defaults : Sect) (bwlimit_mbps : Int) :
    List (String × Sect) → RunSt →
    Option (List String × List (String × Bool)) × List String × RunSt
  | [], st => (some ([], []), [], st)
  | (label, sect) :: rest, st =>
    if label = "DEFAULT" then mirror_loop env defaults bwlimit_mbps rest st
    else
      match mirror_sect env (sect ++ defaults) label bwlimit_mbps st with
      | (none, st1) => (none, [label], st1)
      | (some ok, st1) =>
        match mirror_loop env defaults bwlimit_mbps rest st1 with
        | (none, att, st2) => (none, label :: att, st2)
        | (some (failed, outcomes), att, st2) =>
          (some ((if ok then failed else displayName label (sect ++ defaults) :: failed),
                 (displayName label (sect ++ defaults), ok) :: outcomes),
           label :: att, st2)

/-- Embedding of `mirror` (mirror.py lines 336-389): config read check,
DEFAULT bwlimit (int() may raise) and user check, then the section loop and
the final `failed_mirrors` verdict. -/
def mirror (env : Env) (cfg : MirrorConfig) : MirrorOut :=
  if cfg.readOk = false then ⟨some false, [], [], [], ⟨0, []⟩⟩
  else
    match (if cfgHas cfg.defaults "bwlimit" then pyInt (cfgGet cfg.defaults "bwlimit")
           else some 100) with
    | none => ⟨none, [], [], [], ⟨0, []⟩⟩
    | some bwlimit_mbps =>
      if cfgHas cfg.defaults "user" && !(cfgGet cfg.defaults "user" == env.currentUser) then
        ⟨some false, [], [], [], ⟨0, []⟩⟩
      else
        match mirror_loop env cfg.defaults bwlimit_mbps cfg.sections ⟨0, []⟩ with
        | (none, att, st1) => ⟨none, [], [], att, st1⟩
        | (some (failed, outcomes), att, st1) =>
          ⟨some (failed.isEmpty), failed, outcomes, att, st1⟩

/-! Concrete environments and configurations used to instantiate the
theorems below on explicit inputs. -/

/-- World where every subprocess attempt spawns and exits 0 with empty
output; filesystem checks all pass; not a Red-Hat host. -/
def envZero : Env :=
  ⟨fun _ => ⟨true, 0, ""⟩, fun _ => ⟨true, true, true, true⟩, none, "root"⟩

/-- World where every subprocess attempt exits 1 (a non-retryable code), on a
Red-Hat-family host. -/
def envRC1 : Env :=
  ⟨fun _ => ⟨true, 1, "x"⟩, fun _ => ⟨true, true, true, true⟩,
   some "Rocky Linux release 9.4", "root"⟩

/-- World where every subprocess attempt exits 10 (the retryable partial
transfer code). -/
def envRC10 : Env :=
  ⟨fun _ => ⟨true, 10, "c"⟩, fun _ => ⟨true, true, true, true⟩, none, "root"⟩

/-- World whose first subprocess attempt exits 10 (retryable) and whose
later attempts exit 23 (a non-retryable code). -/
def envRC10then23 : Env :=
  ⟨fun i => if i = 0 then ⟨true, 10, "c"⟩ else ⟨true, 23, "d"⟩,
   fun _ => ⟨true, true, true, true⟩, none, "root"⟩

/-- World whose first attempt exits 0 with output "f\n" (a changed path in
the dry run). -/
def envChanged : Env :=
  ⟨fun _ => ⟨true, 0, "f\n"⟩, fun _ => ⟨true, true, true, true⟩, none, "root"⟩

/-- A debmirror-typed section passing the five presence checks but missing
the deb lists. -/
def sectDebBroken : Sect :=
  [("name", "A"), ("type", "debmirror"), ("host", "h"), ("remote_dir", "r"), ("dest", "d")]

/-- A minimal rsync-typed section with all required fields. -/
def sectRsyncB : Sect :=
  [("name", "B"), ("type", "rsync"), ("host", "h"), ("remote_dir", "r"), ("dest", "d")]

/-- An rsync-typed section missing the `dest` field. -/
def sectNoDest : Sect :=
  [("name", "C"), ("type", "rsync"), ("host", "h"), ("remote_dir", "r")]

/-- An rsync-typed section with no `name` key. -/
def sectNoName : Sect :=
  [("type", "rsync"), ("host", "h"), ("remote_dir", "r"), ("dest", "d")]

/-- Configuration with a broken debmirror target followed by a valid target. -/
def cfgDebThenGood : MirrorConfig :=
  ⟨true, [], [("a", sectDebBroken), ("b", sectRsyncB)]⟩

/-- Configuration whose DEFAULT section demands the user `svc-mirror`. -/
def cfgUserMismatch : MirrorConfig :=
  ⟨true, [("user", "svc-mirror")], [("b", sectRsyncB)]⟩

/-! Helper lemmas about the retry loop. -/

theorem rp_loop_zero (w : Nat → ProcResult) (rcs : Option (List Int))
    (last : Option ProcResult) (ctr : Nat) :
    rp_loop w rcs last 0 ctr = (.done last, 0) := rfl

theorem rp_loop_succ (w : Nat → ProcResult) (rcs : Option (List Int))
    (last : Option ProcResult) (fuel ctr : Nat) :
    rp_loop w rcs last (fuel + 1) ctr =
      if (w ctr).launchOk = false then (.launchFail, 1)
      else if (w ctr).returncode = 0 then (.done (some (w ctr)), 1)
      else if retry_eligible rcs (w ctr).returncode = false then (.done (some (w ctr)), 1)
      else ((rp_loop w rcs (some (w ctr)) fuel (ctr + 1)).1,
            (rp_loop w rcs (some (w ctr)) fuel (ctr + 1)).2 + 1) := rfl

theorem rp_loop_done_none_iff (w : Nat → ProcResult) (rcs : Option (List Int)) :
    ∀ (fuel : Nat) (last : Option ProcResult) (ctr : Nat),
      (rp_loop w rcs last fuel ctr).1 = .done none ↔ (last = none ∧ fuel = 0) := by
  intro fuel
  induction fuel with
  | zero => intro last ctr; simp [rp_loop]
  | succ n ih =>
    intro last ctr
    simp only [rp_loop]
    split
    · simp
    · split
      · simp
      · split
        · simp
        · simpa using (ih (some (w ctr)) (ctr + 1))

theorem rp_loop_count_le (w : Nat → ProcResult) (rcs : Option (List Int)) :
    ∀ (fuel : Nat) (last : Option ProcResult) (ctr : Nat),
      (rp_loop w rcs last fuel ctr).2 ≤ fuel := by
  intro fuel
  induction fuel with
  | zero => intro last ctr; simp [rp_loop]
  | succ n ih =>
    intro last ctr
    simp only [rp_loop]
    split
    · simp
    · split
      · simp
      · split
        · simp
        · have := ih (some (w ctr)) (ctr + 1)
          simpa using Nat.add_le_add_right this 1

theorem rp_loop_count_pos (w : Nat → ProcResult) (rcs : Option (List Int))
    (fuel : Nat) (last : Option ProcResult) (ctr : Nat) (h : 1 ≤ fuel) :
    1 ≤ (rp_loop w rcs last fuel ctr).2 := by
  cases fuel with
  | zero => omega
  | succ n =>
    simp only [rp_loop]
    split
    · simp
    · split
      · simp
      · split
        · simp
        · simp

theorem rp_loop_first_zero (w : Nat → ProcResult) (rcs : Option (List Int))
    (fuel : Nat) (last : Option ProcResult) (ctr : Nat) (hf : 1 ≤ fuel)
    (h1 : (w ctr).launchOk = true) (h2 : (w ctr).returncode = 0) :
    rp_loop w rcs last fuel ctr = (.done (some (w ctr)), 1) := by
  cases fuel with
  | zero => omega
  | succ n => simp [rp_loop, h1, h2]

theorem rp_loop_first_noretry (w : Nat → ProcResult) (rcs : Option (List Int))
    (fuel : Nat) (last : Option ProcResult) (ctr : Nat) (hf : 1 ≤ fuel)
    (h1 : (w ctr).launchOk = true) (h2 : (w ctr).returncode ≠ 0)
    (h3 : retry_eligible rcs (w ctr).returncode = false) :
    rp_loop w rcs last fuel ctr = (.done (some (w ctr)), 1) := by
  cases fuel with
  | zero => omega
  | succ n => simp [rp_loop, h1, h2, h3]

theorem rp_loop_all_retry (w : Nat → ProcResult) (rcs : Option (List Int)) :
    ∀ (fuel : Nat) (last : Option ProcResult) (ctr : Nat), 1 ≤ fuel →
      (∀ i, i < fuel → (w (ctr + i)).launchOk = true ∧ (w (ctr + i)).returncode ≠ 0 ∧
        retry_eligible rcs ((w (ctr + i)).returncode) = true) →
      rp_loop w rcs last fuel ctr = (.done (some (w (ctr + (fuel - 1)))), fuel) := by
  intro fuel
  induction fuel with
  | zero => intro last ctr h; omega
  | succ n ih =>
    intro last ctr _ hall
    obtain ⟨hl0, hr0, he0⟩ := hall 0 (by omega)
    simp only [Nat.add_zero] at hl0 hr0 he0
    cases n with
    | zero =>
      simp [rp_loop, hl0, hr0, he0]
    | succ m =>
      have hrec := ih (some (w ctr)) (ctr + 1) (by omega)
        (fun i hi => by
          have := hall (i + 1) (by omega)
          simpa [Nat.add_assoc, Nat.add_comm 1 i] using this)
      rw [rp_loop_succ, if_neg (by simp [hl0]), if_neg hr0, if_neg (by simp [he0]), hrec]
      have harith : ctr + 1 + (m + 1 - 1) = ctr + (m + 1 + 1 - 1) := by omega
      rw [harith]

theorem rp_loop_retry_then_zero (w : Nat → ProcResult) (rcs : Option (List Int)) :
    ∀ (j fuel : Nat) (last : Option ProcResult) (ctr : Nat), j < fuel →
      (∀ i, i < j → (w (ctr + i)).launchOk = true ∧ (w (ctr + i)).returncode ≠ 0 ∧
        retry_eligible rcs ((w (ctr + i)).returncode) = true) →
      (w (ctr + j)).launchOk = true → (w (ctr + j)).returncode = 0 →
      rp_loop w rcs last fuel ctr = (.done (some (w (ctr + j))), j + 1) := by
  intro j
  induction j with
  | zero =>
    intro fuel last ctr hj _ hl hz
    simp only [Nat.add_zero] at hl hz
    exact rp_loop_first_zero w rcs fuel last ctr (by omega) hl hz
  | succ m ih =>
    intro fuel last ctr hj hall hl hz
    obtain ⟨hl0, hr0, he0⟩ := hall 0 (by omega)
    simp only [Nat.add_zero] at hl0 hr0 he0
    cases fuel with
    | zero => omega
    | succ f =>
      have hrec := ih f (some (w ctr)) (ctr + 1) (by omega)
        (fun i hi => by
          have := hall (i + 1) (by omega)
          simpa [Nat.add_assoc, Nat.add_comm 1 i] using this)
        (by
          have : ctr + 1 + m = ctr + (m + 1) := by omega
          rw [this]
          exact hl)
        (by
          have : ctr + 1 + m = ctr + (m + 1) := by omega
          rw [this]
          exact hz)
      rw [rp_loop_succ, if_neg (by simp [hl0]), if_neg hr0, if_neg (by simp [he0]), hrec]
      have harith : ctr + 1 + m = ctr + (m + 1) := by omega
      rw [harith]

theorem rp_loop_retry_then_noretry (w : Nat → ProcResult) (rcs : Option (List Int)) :
    ∀ (j fuel : Nat) (last : Option ProcResult) (ctr : Nat), j < fuel →
      (∀ i, i < j → (w (ctr + i)).launchOk = true ∧ (w (ctr + i)).returncode ≠ 0 ∧
        retry_eligible rcs ((w (ctr + i)).returncode) = true) →
      (w (ctr + j)).launchOk = true → (w (ctr + j)).returncode ≠ 0 →
      retry_eligible rcs ((w (ctr + j)).returncode) = false →
      rp_loop w rcs last fuel ctr = (.done (some (w (ctr + j))), j + 1) := by
  intro j
  induction j with
  | zero =>
    intro fuel last ctr hj _ hl hnz hne
    simp only [Nat.add_zero] at hl hnz hne
    exact rp_loop_first_noretry w rcs fuel last ctr (by omega) hl hnz hne
  | succ m ih =>
    intro fuel last ctr hj hall hl hnz hne
    obtain ⟨hl0, hr0, he0⟩ := hall 0 (by omega)
    simp only [Nat.add_zero] at hl0 hr0 he0
    cases fuel with
    | zero => omega
    | succ f =>
      have hshift : ctr + 1 + m = ctr + (m + 1) := by omega
      have hrec := ih f (some (w ctr)) (ctr + 1) (by omega)
        (fun i hi => by
          have := hall (i + 1) (by omega)
          simpa [Nat.add_assoc, Nat.add_comm 1 i] using this)
        (by rw [hshift]; exact hl)
        (by rw [hshift]; exact hnz)
        (by rw [hshift]; exact hne)
      rw [rp_loop_succ, if_neg (by simp [hl0]), if_neg hr0, if_neg (by simp [he0]), hrec]
      rw [hshift]

/-! Helper lemmas about the process runner. -/

theorem run_process_def (env : Env) (tag : StageTag) (args : List String)
    (cap : Bool) (rcs : Option (List Int)) (rcnt : Option Int) (st : RunSt) :
    run_process env tag args cap rcs rcnt st =
      (rp_result (rp_loop env.w rcs none ((rcnt.getD 5).toNat) st.ctr).1 cap,
       ⟨st.ctr + (rp_loop env.w rcs none ((rcnt.getD 5).toNat) st.ctr).2,
        st.trace ++ List.replicate (rp_loop env.w rcs none ((rcnt.getD 5).toNat) st.ctr).2
          ⟨tag, args⟩⟩) := rfl

theorem rp_result_eq_none_iff (l : LoopRes) (cap : Bool) :
    rp_result l cap = none ↔ l = .done none := by
  cases l with
  | launchFail => simp [rp_result]
  | done r =>
    cases r with
    | none => simp [rp_result]
    | some pr =>
      simp only [rp_result]
      split <;> simp

theorem run_process_isSome (env : Env) (tag : StageTag) (args : List String)
    (cap : Bool) (rcs : Option (List Int)) (rcnt : Option Int) (st : RunSt)
    (h : 1 ≤ ((rcnt.getD 5).toNat)) :
    (run_process env tag args cap rcs rcnt st).1.isSome = true := by
  rw [run_process_def]
  simp only [Option.isSome_iff_ne_none, ne_eq, rp_result_eq_none_iff,
    rp_loop_done_none_iff]
  omega

theorem run_process_state (env : Env) (tag : StageTag) (args : List String)
    (cap : Bool) (rcs : Option (List Int)) (rcnt : Option Int) (st : RunSt) :
    ∃ k, (run_process env tag args cap rcs rcnt st).2 =
        ⟨st.ctr + k, st.trace ++ List.replicate k ⟨tag, args⟩⟩ ∧
      k ≤ (rcnt.getD 5).toNat ∧ (1 ≤ (rcnt.getD 5).toNat → 1 ≤ k) :=
  ⟨(rp_loop env.w rcs none ((rcnt.getD 5).toNat) st.ctr).2, rfl,
   rp_loop_count_le env.w rcs ((rcnt.getD 5).toNat) none st.ctr,
   fun h => rp_loop_count_pos env.w rcs ((rcnt.getD 5).toNat) none st.ctr h⟩

theorem mem_replicate_tag {k : Nat} {tag : StageTag} {args : List String} :
    ∀ e ∈ List.replicate k (⟨tag, args⟩ : Invocation), e.tag = tag := by
  intro e he
  rw [List.eq_of_mem_replicate he]

/-! Helper lemmas about the sync strategies. -/

theorem restorecon_step_state (env : Env) (dest : String) (success : Bool) (st : RunSt) :
    ∃ k, 1 ≤ k ∧ restorecon_step env dest success st =
      (some success,
       ⟨st.ctr + k, st.trace ++ List.replicate k ⟨.restorecon, ["restorecon", "-R", dest]⟩⟩) := by
  obtain ⟨k, hk, -, hpos⟩ :=
    run_process_state env .restorecon ["restorecon", "-R", dest] false none none st
  have hS := run_process_isSome env .restorecon ["restorecon", "-R", dest] false none none st
    (by decide)
  refine ⟨k, hpos (by decide), ?_⟩
  unfold restorecon_step
  split
  next st1 heq =>
    rw [heq] at hS
    simp at hS
  next v st1 heq =>
    have h2 : st1 = ⟨st.ctr + k, st.trace ++ List.replicate k ⟨.restorecon, ["restorecon", "-R", dest]⟩⟩ :=
      (congrArg Prod.snd heq).symm.trans hk
    rw [h2]

theorem rsync_final_ne_none (env : Env) (cargs : List String) (remote dest : String)
    (st : RunSt) : (rsync_final env cargs remote dest st).1 ≠ none := by
  have hS := run_process_isSome env .final
    (cargs ++ ["--delete-delay", "--delay-updates"] ++ [remote, dest]) false (some [10]) none st
    (by decide)
  unfold rsync_final
  split
  next st1 heq =>
    rw [heq] at hS
    simp at hS
  next success o st1 heq =>
    split
    · obtain ⟨k2, -, hre⟩ := restorecon_step_state env dest success st1
      rw [hre]
      simp
    · simp

theorem rsync_final_trace (env : Env) (cargs : List String) (remote dest : String)
    (st : RunSt) :
    ∃ tail, (rsync_final env cargs remote dest st).2.trace = st.trace ++ tail ∧
      ∀ e ∈ tail, e.tag = StageTag.final ∨ e.tag = StageTag.restorecon := by
  obtain ⟨k1, hk1, -, -⟩ := run_process_state env .final
    (cargs ++ ["--delete-delay", "--delay-updates"] ++ [remote, dest]) false (some [10]) none st
  unfold rsync_final
  split
  next st1 heq =>
    have h2 : st1 = ⟨st.ctr + k1,
        st.trace ++ List.replicate k1 ⟨.final, cargs ++ ["--delete-delay", "--delay-updates"] ++ [remote, dest]⟩⟩ :=
      (congrArg Prod.snd heq).symm.trans hk1
    refine ⟨List.replicate k1 ⟨.final, cargs ++ ["--delete-delay", "--delay-updates"] ++ [remote, dest]⟩, ?_, ?_⟩
    · simp [h2]
    · intro e he
      exact Or.inl (mem_replicate_tag e he)
  next success o st1 heq =>
    have h2 : st1 = ⟨st.ctr + k1,
        st.trace ++ List.replicate k1 ⟨.final, cargs ++ ["--delete-delay", "--delay-updates"] ++ [remote, dest]⟩⟩ :=
      (congrArg Prod.snd heq).symm.trans hk1
    split
    · obtain ⟨k2, -, hre⟩ := restorecon_step_state env dest success st1
      rw [hre]
      refine ⟨List.replicate k1 ⟨.final, cargs ++ ["--delete-delay", "--delay-updates"] ++ [remote, dest]⟩ ++
        List.replicate k2 ⟨.restorecon, ["restorecon", "-R", dest]⟩, ?_, ?_⟩
      · simp [h2, List.append_assoc]
      · intro e he
        rcases List.mem_append.mp he with h | h
        · exact Or.inl (mem_replicate_tag e h)
        · exact Or.inr (mem_replicate_tag e h)
    · refine ⟨List.replicate k1 ⟨.final, cargs ++ ["--delete-delay", "--delay-updates"] ++ [remote, dest]⟩, ?_, ?_⟩
      · simp [h2]
      · intro e he
        exact Or.inl (mem_replicate_tag e he)

theorem rsync_final_restorecon_iff (env : Env) (cargs : List String) (remote dest : String)
    (ctr : Nat) :
    (∃ e ∈ (rsync_final env cargs remote dest ⟨ctr, []⟩).2.trace, e.tag = StageTag.restorecon) ↔
      ((rsync_final env cargs remote dest ⟨ctr, []⟩).1 = some true ∧
        is_redhat_based env.redhatRelease = true) := by
  obtain ⟨k1, hk1, -, -⟩ := run_process_state env .final
    (cargs ++ ["--delete-delay", "--delay-updates"] ++ [remote, dest]) false (some [10]) none ⟨ctr, []⟩
  unfold rsync_final
  split
  next st1 heq =>
    have h2 : st1 = ⟨ctr + k1,
        [] ++ List.replicate k1 ⟨.final, cargs ++ ["--delete-delay", "--delay-updates"] ++ [remote, dest]⟩⟩ :=
      (congrArg Prod.snd heq).symm.trans hk1
    constructor
    · rintro ⟨e, he, htag⟩
      rw [h2] at he
      simp only [List.nil_append] at he
      rw [mem_replicate_tag e he] at htag
      simp at htag
    · rintro ⟨habs, -⟩
      simp at habs
  next success o st1 heq =>
    have h2 : st1 = ⟨ctr + k1,
        [] ++ List.replicate k1 ⟨.final, cargs ++ ["--delete-delay", "--delay-updates"] ++ [remote, dest]⟩⟩ :=
      (congrArg Prod.snd heq).symm.trans hk1
    split
    next hcond =>
      obtain ⟨hsucc, hrh⟩ := Bool.and_eq_true_iff.mp hcond
      obtain ⟨k2, hk2pos, hre⟩ := restorecon_step_state env dest success st1
      subst hsucc
      rw [hre]
      apply iff_of_true
      · refine ⟨⟨.restorecon, ["restorecon", "-R", dest]⟩, ?_, rfl⟩
        simp only [List.mem_append]
        right
        exact List.mem_replicate.mpr ⟨by omega, rfl⟩
      · exact ⟨rfl, hrh⟩
    next hcond =>
      constructor
      · rintro ⟨e, he, htag⟩
        rw [h2] at he
        simp only [List.nil_append] at he
        rw [mem_replicate_tag e he] at htag
        simp at htag
      · rintro ⟨hres, hrh⟩
        exfalso
        apply hcond
        simp only [Option.some.injEq] at hres
        simp [hres, hrh]

theorem rsync_transfer_fse_none (env : Env) (remote dest : String) (bw : Int)
    (excl : Option (List String)) (st : RunSt) :
    rsync_transfer env remote dest bw none excl st =
      rsync_final env (common_args bw excl) remote dest st := rfl

theorem rsync_transfer_fse_nil (env : Env) (remote dest : String) (bw : Int)
    (excl : Option (List String)) (st : RunSt) :
    rsync_transfer env remote dest bw (some []) excl st =
      rsync_final env (common_args bw excl) remote dest st := rfl

theorem rsync_transfer_fse_cons (env : Env) (remote dest : String) (bw : Int)
    (p : String) (ps : List String) (excl : Option (List String)) (st : RunSt) :
    rsync_transfer env remote dest bw (some (p :: ps)) excl st =
      (match run_process env .stage1
          (common_args bw excl ++ (p :: ps).map (fun q => "--exclude=" ++ q) ++ [remote, dest])
          false (some [10]) none st with
       | (none, st1) => (none, st1)
       | (some (false, _), st1) => (some false, st1)
       | (some (true, _), st1) => rsync_final env (common_args bw excl) remote dest st1) := rfl

theorem rsync_transfer_ne_none (env : Env) (remote dest : String) (bw : Int)
    (fse excl : Option (List String)) (st : RunSt) :
    (rsync_transfer env remote dest bw fse excl st).1 ≠ none := by
  match fse with
  | none =>
    rw [rsync_transfer_fse_none]
    exact rsync_final_ne_none env (common_args bw excl) remote dest st
  | some [] =>
    rw [rsync_transfer_fse_nil]
    exact rsync_final_ne_none env (common_args bw excl) remote dest st
  | some (p :: ps) =>
    rw [rsync_transfer_fse_cons]
    have hS := run_process_isSome env .stage1
      (common_args bw excl ++ (p :: ps).map (fun q => "--exclude=" ++ q) ++ [remote, dest])
      false (some [10]) none st (by decide)
    split
    next st1 heq =>
      rw [heq] at hS
      simp at hS
    next st1 heq =>
      simp
    next st1 heq =>
      exact rsync_final_ne_none env (common_args bw excl) remote dest st1

theorem rsync_transfer_stage1_iff (env : Env) (remote dest : String) (bw : Int)
    (fse excl : Option (List String)) (ctr : Nat) :
    (∃ e ∈ (rsync_transfer env remote dest bw fse excl ⟨ctr, []⟩).2.trace,
        e.tag = StageTag.stage1) ↔ truthy_list fse = true := by
  match fse with
  | none =>
    rw [rsync_transfer_fse_none]
    apply iff_of_false
    · rintro ⟨e, he, htag⟩
      obtain ⟨tail, htr, htags⟩ := rsync_final_trace env (common_args bw excl) remote dest ⟨ctr, []⟩
      rw [htr] at he
      simp only [List.nil_append] at he
      rcases htags e he with h | h <;> rw [h] at htag <;> simp at htag
    · simp [truthy_list]
  | some [] =>
    rw [rsync_transfer_fse_nil]
    apply iff_of_false
    · rintro ⟨e, he, htag⟩
      obtain ⟨tail, htr, htags⟩ := rsync_final_trace env (common_args bw excl) remote dest ⟨ctr, []⟩
      rw [htr] at he
      simp only [List.nil_append] at he
      rcases htags e he with h | h <;> rw [h] at htag <;> simp at htag
    · simp [truthy_list]
  | some (p :: ps) =>
    rw [rsync_transfer_fse_cons]
    constructor
    · intro _
      rfl
    · intro _
      obtain ⟨k1, hk1, -, hpos⟩ := run_process_state env .stage1
        (common_args bw excl ++ (p :: ps).map (fun q => "--exclude=" ++ q) ++ [remote, dest])
        false (some [10]) none ⟨ctr, []⟩
      have hk1pos : 1 ≤ k1 := hpos (by decide)
      split
      next st1 heq =>
        have h2 : st1 = ⟨ctr + k1, [] ++ List.replicate k1
            ⟨.stage1, common_args bw excl ++ (p :: ps).map (fun q => "--exclude=" ++ q) ++ [remote, dest]⟩⟩ :=
          (congrArg Prod.snd heq).symm.trans hk1
        refine ⟨⟨.stage1, common_args bw excl ++ (p :: ps).map (fun q => "--exclude=" ++ q) ++ [remote, dest]⟩, ?_, rfl⟩
        rw [h2]
        simp only [List.nil_append]
        exact List.mem_replicate.mpr ⟨by omega, rfl⟩
      next st1 heq =>
        have h2 : st1 = ⟨ctr + k1, [] ++ List.replicate k1
            ⟨.stage1, common_args bw excl ++ (p :: ps).map (fun q => "--exclude=" ++ q) ++ [remote, dest]⟩⟩ :=
          (congrArg Prod.snd heq).symm.trans hk1
        refine ⟨⟨.stage1, common_args bw excl ++ (p :: ps).map (fun q => "--exclude=" ++ q) ++ [remote, dest]⟩, ?_, rfl⟩
        rw [h2]
        simp only [List.nil_append]
        exact List.mem_replicate.mpr ⟨by omega, rfl⟩
      next st1 heq =>
        have h2 : st1 = ⟨ctr + k1, [] ++ List.replicate k1
            ⟨.stage1, common_args bw excl ++ (p :: ps).map (fun q => "--exclude=" ++ q) ++ [remote, dest]⟩⟩ :=
          (congrArg Prod.snd heq).symm.trans hk1
        obtain ⟨tail, htr, -⟩ := rsync_final_trace env (common_args bw excl) remote dest st1
        refine ⟨⟨.stage1, common_args bw excl ++ (p :: ps).map (fun q => "--exclude=" ++ q) ++ [remote, dest]⟩, ?_, rfl⟩
        rw [htr, h2]
        simp only [List.nil_append, List.mem_append]
        left
        exact List.mem_replicate.mpr ⟨by omega, rfl⟩

theorem rsync_ne_none (env : Env) (remote dest : String) (bw : Int)
    (pf : Option String) (fse excl : Option (List String)) (st : RunSt) :
    (rsync env remote dest bw pf fse excl st).1 ≠ none := by
  unfold rsync
  split
  · simp
  · split
    next pf' =>
      have hS := run_process_isSome env .precheck
        (precheck_args (norm_dir remote) (norm_dir dest) pf') true (some [10]) none st (by decide)
      split
      next st1 heq =>
        rw [heq] at hS
        simp at hS
      next st1 heq =>
        simp
      next out st1 heq =>
        split
        · simp
        next s =>
          split
          · simp
          · exact rsync_transfer_ne_none env (norm_dir remote) (norm_dir dest) bw fse excl st1
    next =>
      exact rsync_transfer_ne_none env (norm_dir remote) (norm_dir dest) bw fse excl st

theorem debmirror_ne_none (env : Env) (host remote_dir dest : String)
    (dists arch sections : List String) (bw : Int) (st : RunSt) :
    (debmirror env host remote_dir dest dists arch sections bw st).1 ≠ none := by
  unfold debmirror
  split
  · simp
  · have hS := run_process_isSome env .debmirrorTool
      (debmirror_args host remote_dir (norm_dir dest) dists arch sections bw)
      false none none st (by decide)
    split
    next st1 heq =>
      rw [heq] at hS
      simp at hS
    next success o st1 heq =>
      split
      · obtain ⟨k2, -, hre⟩ := restorecon_step_state env (norm_dir dest) success st1
        rw [hre]
        simp
      · simp

theorem debmirror_restorecon_iff (env : Env) (host remote_dir dest : String)
    (dists arch sections : List String) (bw : Int) (ctr : Nat) :
    (∃ e ∈ (debmirror env host remote_dir dest dists arch sections bw ⟨ctr, []⟩).2.trace,
        e.tag = StageTag.restorecon) ↔
      ((debmirror env host remote_dir dest dists arch sections bw ⟨ctr, []⟩).1 = some true ∧
        is_redhat_based env.redhatRelease = true) := by
  unfold debmirror
  split
  · apply iff_of_false
    · rintro ⟨e, he, -⟩
      simp at he
    · rintro ⟨habs, -⟩
      simp at habs
  · obtain ⟨k1, hk1, -, -⟩ := run_process_state env .debmirrorTool
      (debmirror_args host remote_dir (norm_dir dest) dists arch sections bw)
      false none none ⟨ctr, []⟩
    split
    next st1 heq =>
      have h2 : st1 = ⟨ctr + k1, [] ++ List.replicate k1
          ⟨.debmirrorTool, debmirror_args host remote_dir (norm_dir dest) dists arch sections bw⟩⟩ :=
        (congrArg Prod.snd heq).symm.trans hk1
      apply iff_of_false
      · rintro ⟨e, he, htag⟩
        rw [h2] at he
        simp only [List.nil_append] at he
        rw [mem_replicate_tag e he] at htag
        simp at htag
      · rintro ⟨habs, -⟩
        simp at habs
    next success o st1 heq =>
      have h2 : st1 = ⟨ctr + k1, [] ++ List.replicate k1
          ⟨.debmirrorTool, debmirror_args host remote_dir (norm_dir dest) dists arch sections bw⟩⟩ :=
        (congrArg Prod.snd heq).symm.trans hk1
      split
      next hcond =>
        obtain ⟨hsucc, hrh⟩ := Bool.and_eq_true_iff.mp hcond
        obtain ⟨k2, hk2pos, hre⟩ := restorecon_step_state env (norm_dir dest) success st1
        subst hsucc
        rw [hre]
        apply iff_of_true
        · refine ⟨⟨.restorecon, ["restorecon", "-R", norm_dir dest]⟩, ?_, rfl⟩
          simp only [List.mem_append]
          right
          exact List.mem_replicate.mpr ⟨by omega, rfl⟩
        · exact ⟨rfl, hrh⟩
      next hcond =>
        constructor
        · rintro ⟨e, he, htag⟩
          rw [h2] at he
          simp only [List.nil_append] at he
          rw [mem_replicate_tag e he] at htag
          simp at htag
        · rintro ⟨hres, hrh⟩
          exfalso
          apply hcond
          simp only [Option.some.injEq] at hres
          simp [hres, hrh]

/-! Helper lemmas about the coordinator. -/

theorem mirror_sect_none_iff (env : Env) (sect : Sect) (label : String)
    (bw : Int) (st : RunSt) :
    (mirror_sect env sect label bw st).1 = none ↔ sect_raises sect = true := by
  unfold mirror_sect
  split
  next h =>
    simp [sect_raises, h]
  next h1 =>
    simp only [Bool.not_eq_false] at h1
    split
    next h =>
      simp [sect_raises, h]
    next h2 =>
      simp only [Bool.not_eq_false] at h2
      split
      next h =>
        simp [sect_raises, h]
      next h3 =>
        simp only [Bool.not_eq_false] at h3
        split
        next h =>
          simp [sect_raises, h]
        next h4 =>
          simp only [Bool.not_eq_false] at h4
          split
          next h =>
            simp [sect_raises, h]
          next h5 =>
            simp only [Bool.not_eq_false] at h5
            split
            next hty =>
              apply iff_of_false
              · exact rsync_ne_none env _ _ bw _ _ _ st
              · simp [sect_raises, hty]
            next hty =>
              split
              next hty2 =>
                split
                next hd =>
                  have hd1 : cfgHas sect "deb_dists" = false := by simp [cfgHas, hd]
                  apply iff_of_true rfl
                  simp [sect_raises, h1, h2, h3, h4, h5, hty2, hd1]
                next dists hd =>
                  have hd1 : cfgHas sect "deb_dists" = true := by simp [cfgHas, hd]
                  split
                  next ha =>
                    have ha1 : cfgHas sect "deb_arch" = false := by simp [cfgHas, ha]
                    apply iff_of_true rfl
                    simp [sect_raises, h1, h2, h3, h4, h5, hty2, hd1, ha1]
                  next arch ha =>
                    have ha1 : cfgHas sect "deb_arch" = true := by simp [cfgHas, ha]
                    split
                    next hs =>
                      have hs1 : cfgHas sect "deb_sections" = false := by simp [cfgHas, hs]
                      apply iff_of_true rfl
                      simp [sect_raises, h1, h2, h3, h4, h5, hty2, hd1, ha1, hs1]
                    next sections hs =>
                      have hs1 : cfgHas sect "deb_sections" = true := by simp [cfgHas, hs]
                      apply iff_of_false
                      · exact debmirror_ne_none env _ _ _ _ _ _ bw st
                      · simp [sect_raises, hd1, ha1, hs1]
              next hty2 =>
                apply iff_of_false
                · simp
                · simp [sect_raises, hty2]

theorem mirror_sect_missing (env : Env) (sect : Sect) (label : String)
    (bw : Int) (st : RunSt)
    (h : cfgHas sect "name" = false ∨ cfgHas sect "type" = false ∨
         cfgHas sect "host" = false ∨ cfgHas sect "remote_dir" = false ∨
         cfgHas sect "dest" = false) :
    mirror_sect env sect label bw st = (some false, st) := by
  unfold mirror_sect
  split
  · rfl
  next h1 =>
    split
    · rfl
    next h2 =>
      split
      · rfl
      next h3 =>
        split
        · rfl
        next h4 =>
          split
          · rfl
          next h5 =>
            simp only [Bool.not_eq_false] at h1 h2 h3 h4 h5
            simp [h1, h2, h3, h4, h5] at h

theorem mirror_loop_cons (env : Env) (defaults : Sect) (bw : Int)
    (label : String) (sect : Sect) (rest : List (String × Sect)) (st : RunSt) :
    mirror_loop env defaults bw ((label, sect) :: rest) st =
      if label = "DEFAULT" then mirror_loop env defaults bw rest st
      else
        match mirror_sect env (sect ++ defaults) label bw st with
        | (none, st1) => (none, [label], st1)
        | (some ok, st1) =>
          match mirror_loop env defaults bw rest st1 with
          | (none, att, st2) => (none, label :: att, st2)
          | (some (failed, outcomes), att, st2) =>
            (some ((if ok then failed else displayName label (sect ++ defaults) :: failed),
                   (displayName label (sect ++ defaults), ok) :: outcomes),
             label :: att, st2) := rfl

theorem mirror_loop_ok (env : Env) (defaults : Sect) (bw : Int) :
    ∀ (sections : List (String × Sect)) (st : RunSt),
      (∀ p ∈ sections, p.1 ≠ "DEFAULT") →
      (∀ p ∈ sections, sect_raises (p.2 ++ defaults) = false) →
      ∃ failed outcomes stEnd,
        mirror_loop env defaults bw sections st =
          (some (failed, outcomes), sections.map Prod.fst, stEnd) ∧
        outcomes.map Prod.fst = sections.map (fun p => displayName p.1 (p.2 ++ defaults)) ∧
        failed = (outcomes.filter (fun p => !p.2)).map Prod.fst := by
  intro sections
  induction sections with
  | nil =>
    intro st _ _
    exact ⟨[], [], st, rfl, rfl, rfl⟩
  | cons hd tl ih =>
    intro st hD hR
    obtain ⟨label, sect⟩ := hd
    have hDl : ¬(label = "DEFAULT") := hD (label, sect) (by simp)
    have hRl : sect_raises (sect ++ defaults) = false := hR (label, sect) (by simp)
    have hsect : (mirror_sect env (sect ++ defaults) label bw st).1 ≠ none := by
      intro hnone
      rw [mirror_sect_none_iff] at hnone
      rw [hRl] at hnone
      exact Bool.false_ne_true hnone
    rw [mirror_loop_cons, if_neg hDl]
    split
    next st1 heq =>
      rw [heq] at hsect
      simp at hsect
    next ok st1 heq =>
      obtain ⟨failed, outcomes, st2, hloop, houts, hfail⟩ :=
        ih st1 (fun p hp => hD p (by simp [hp])) (fun p hp => hR p (by simp [hp]))
      rw [hloop]
      refine ⟨_, _, st2, rfl, ?_, ?_⟩
      · simp [houts]
      · cases ok
        · simp [hfail]
        · simp [hfail]

theorem mirror_ok (env : Env) (cfg : MirrorConfig)
    (hread : cfg.readOk = true)
    (hbw : cfgHas cfg.defaults "bwlimit" = false ∨
      (pyInt (cfgGet cfg.defaults "bwlimit")).isSome = true)
    (huser : cfgHas cfg.defaults "user" = false ∨
      cfgGet cfg.defaults "user" = env.currentUser)
    (hD : ∀ p ∈ cfg.sections, p.1 ≠ "DEFAULT")
    (hR : ∀ p ∈ cfg.sections, sect_raises (p.2 ++ cfg.defaults) = false) :
    (mirror env cfg).result = some ((mirror env cfg).failed.isEmpty) ∧
    (mirror env cfg).attempted = cfg.sections.map Prod.fst ∧
    (mirror env cfg).outcomes.map Prod.fst =
      cfg.sections.map (fun p => displayName p.1 (p.2 ++ cfg.defaults)) ∧
    (mirror env cfg).failed =
      ((mirror env cfg).outcomes.filter (fun p => !p.2)).map Prod.fst := by
  unfold mirror
  rw [if_neg (by simp [hread])]
  split
  next hb =>
    exfalso
    rcases hbw with h | h
    · simp [h] at hb
    · by_cases hhas : cfgHas cfg.defaults "bwlimit" = true
      · simp [hhas] at hb
        rw [hb] at h
        simp at h
      · simp [hhas] at hb
  next bwv hb =>
    have hcond : (cfgHas cfg.defaults "user" &&
        !(cfgGet cfg.defaults "user" == env.currentUser)) = false := by
      rcases huser with h | h
      · simp [h]
      · simp [h]
    rw [if_neg (by simp [hcond])]
    obtain ⟨failed, outcomes, stEnd, hloop, houts, hfail⟩ :=
      mirror_loop_ok env cfg.defaults bwv cfg.sections ⟨0, []⟩ hD hR
    rw [hloop]
    exact ⟨rfl, rfl, houts, hfail⟩

/-! Helper lemmas about command-line quoting. -/

theorem str_replace_char_not_mem (c : Char) (r : List Char) :
    ∀ s : List Char, s.contains c = false → str_replace_char s c r = s := by
  intro s
  induction s with
  | nil => intro _; rfl
  | cons x xs ih =>
    intro h
    simp only [List.contains_cons, Bool.or_eq_false_iff] at h
    obtain ⟨h1, h2⟩ := h
    have hxc : ¬(x = c) := by
      intro he
      subst he
      simp at h1
    show (if x = c then r else [x]) ++ str_replace_char xs c r = x :: xs
    rw [if_neg hxc, ih h2]
    rfl

theorem quote_arg_backslash_eq (arg : List Char) :
    quote_arg_backslash arg = doubleBackslashes arg := by
  unfold quote_arg_backslash
  by_cases hb : arg.contains '\\' = true
  · rw [if_pos hb]
    rfl
  · rw [if_neg hb]
    have hb2 : arg.contains '\\' = false := by
      revert hb
      cases arg.contains '\\' <;> simp
    exact (str_replace_char_not_mem '\\' ['\\', '\\'] arg hb2).symm

theorem quote_arg_escape_eq (arg : List Char) :
    quote_arg_escape arg = escapeQuotes arg := by
  unfold quote_arg_escape
  by_cases hq : arg.contains '"' = true
  · rw [if_pos hq]
    rfl
  · rw [if_neg hq]
    have hq2 : arg.contains '"' = false := by
      revert hq
      cases arg.contains '"' <;> simp
    exact (str_replace_char_not_mem '"' ['\\', '"'] arg hq2).symm

theorem quote_arg_eq_spec (arg : List Char) : quote_arg arg = quote_arg_spec arg := by
  unfold quote_arg quote_arg_spec bareArg
  split
  next h => rfl
  next h => rw [quote_arg_backslash_eq, quote_arg_escape_eq]

theorem mirror_no_defaults (env : Env) (sections : List (String × Sect)) :
    mirror env ⟨true, [], sections⟩ =
      (match mirror_loop env [] 100 sections ⟨0, []⟩ with
       | (none, att, st1) => ⟨none, [], [], att, st1⟩
       | (some (failed, outcomes), att, st1) =>
         ⟨some (failed.isEmpty), failed, outcomes, att, st1⟩) := rfl

theorem mirror_head_some_false (env : Env) (label : String) (sect : Sect)
    (rest : List (String × Sect))
    (hD : ¬(label = "DEFAULT")) (hDr : ∀ p ∈ rest, p.1 ≠ "DEFAULT")
    (hRr : ∀ p ∈ rest, sect_raises p.2 = false)
    (hhead : mirror_sect env (sect ++ []) label 100 ⟨0, []⟩ = (some false, ⟨0, []⟩)) :
    ∃ failedR outsR stR,
      mirror env ⟨true, [], (label, sect) :: rest⟩ =
        ⟨some false, displayName label (sect ++ []) :: failedR,
         (displayName label (sect ++ []), false) :: outsR,
         label :: rest.map Prod.fst, stR⟩ := by
  have hRr2 : ∀ p ∈ rest, sect_raises (p.2 ++ ([] : Sect)) = false := by
    intro p hp
    rw [List.append_nil]
    exact hRr p hp
  obtain ⟨failedR, outsR, stR, hloopR, -, -⟩ := mirror_loop_ok env [] 100 rest ⟨0, []⟩ hDr hRr2
  refine ⟨failedR, outsR, stR, ?_⟩
  rw [mirror_no_defaults, mirror_loop_cons, if_neg hD, hhead]
  dsimp only
  rw [hloopR]
  rfl

/-!
The claims. Each `claim_Cn` theorem settles claim Cn of the specification
against the embedding above; `claim_Cn_witness` instantiates it on concrete
inputs, and `claim_Cn_counterexample` exhibits a concrete violation of a
claim as originally stated.
-/

/-- C8: rendering an argument vector for logging: an argument is left bare
when it contains none of space, double-quote, backslash, asterisk, pipe;
otherwise every backslash is doubled, then every double-quote is escaped with
a backslash, and the result is wrapped in double quotes; the vector rendering
is the space-separated join of the per-argument renderings. -/
theorem claim_C8 :
    (∀ arg : List Char, quote_arg arg = quote_arg_spec arg) ∧
    (∀ args : List (List Char),
      args_to_cmdline args = List.intercalate [' '] (args.map quote_arg_spec)) := by
  constructor
  · exact quote_arg_eq_spec
  · intro args
    unfold args_to_cmdline
    congr 1
    exact List.map_congr_left (fun a _ => quote_arg_eq_spec a)

/-- C9: with retry_count at least 1 (including the default of 5) the process
runner always returns a result (the raise-on-missing-result branch is
unreachable); with retry_count zero or negative it raises instead. -/
theorem claim_C9 (env : Env) (tag : StageTag) (args : List String)
    (cap : Bool) (rcs : Option (List Int)) (rcnt : Option Int) (st : RunSt) :
    ((rcnt = none ∨ ∃ n : Int, rcnt = some n ∧ 1 ≤ n) →
      ((run_process env tag args cap rcs rcnt st).1).isSome = true) ∧
    (∀ n : Int, rcnt = some n → n ≤ 0 →
      (run_process env tag args cap rcs rcnt st).1 = none) := by
  constructor
  · intro h
    apply run_process_isSome
    rcases h with h | ⟨n, hn, hp⟩
    · subst h
      decide
    · subst hn
      simp only [Option.getD]
      omega
  · intro n hn hle
    subst hn
    rw [run_process_def]
    have h0 : (((some n).getD 5).toNat) = 0 := by
      simp only [Option.getD]
      omega
    rw [h0, rp_loop_zero]
    rfl

/-- C9 witness: with the default retry_count a result is returned; with
retry_count 0 the runner raises. -/
theorem claim_C9_witness :
    ((run_process envZero .final ["x"] false none none ⟨0, []⟩).1).isSome = true ∧
    (run_process envZero .final ["x"] false none (some 0) ⟨0, []⟩).1 = none :=
  ⟨(claim_C9 envZero .final ["x"] false none none ⟨0, []⟩).1 (Or.inl rfl),
   (claim_C9 envZero .final ["x"] false none (some 0) ⟨0, []⟩).2 0 rfl (by omega)⟩

/-- C3: for every process invocation: exit code 0 reports success; a nonzero
exit code outside the retryable set (or with no retryable set) reports
failure after exactly one attempt; an always-retryable nonzero code is
re-attempted until the attempt budget (default 5) is exhausted and then
reports failure; a retryable code followed by a zero exit stops with success;
a retryable prefix followed by a non-retryable nonzero code stops with
failure at that attempt, with zero further attempts; the number of attempts
never exceeds the budget. -/
theorem claim_C3 (env : Env) (tag : StageTag) (args : List String)
    (cap : Bool) (rcs : Option (List Int)) (rcnt : Option Int) (ctr : Nat) :
    (1 ≤ ((rcnt.getD 5).toNat) → (env.w ctr).launchOk = true →
      (env.w ctr).returncode = 0 →
      run_process env tag args cap rcs rcnt ⟨ctr, []⟩ =
        (some (true, if cap then some (env.w ctr).stdout else none),
         ⟨ctr + 1, [⟨tag, args⟩]⟩)) ∧
    (1 ≤ ((rcnt.getD 5).toNat) → (env.w ctr).launchOk = true →
      (env.w ctr).returncode ≠ 0 →
      retry_eligible rcs (env.w ctr).returncode = false →
      run_process env tag args cap rcs rcnt ⟨ctr, []⟩ =
        (some (false, none), ⟨ctr + 1, [⟨tag, args⟩]⟩)) ∧
    (1 ≤ ((rcnt.getD 5).toNat) →
      (∀ i, i < ((rcnt.getD 5).toNat) → (env.w (ctr + i)).launchOk = true ∧
        (env.w (ctr + i)).returncode ≠ 0 ∧
        retry_eligible rcs ((env.w (ctr + i)).returncode) = true) →
      run_process env tag args cap rcs rcnt ⟨ctr, []⟩ =
        (some (false, none),
         ⟨ctr + ((rcnt.getD 5).toNat),
          List.replicate ((rcnt.getD 5).toNat) ⟨tag, args⟩⟩)) ∧
    (∀ j, j < ((rcnt.getD 5).toNat) →
      (∀ i, i < j → (env.w (ctr + i)).launchOk = true ∧
        (env.w (ctr + i)).returncode ≠ 0 ∧
        retry_eligible rcs ((env.w (ctr + i)).returncode) = true) →
      (env.w (ctr + j)).launchOk = true → (env.w (ctr + j)).returncode = 0 →
      run_process env tag args cap rcs rcnt ⟨ctr, []⟩ =
        (some (true, if cap then some (env.w (ctr + j)).stdout else none),
         ⟨ctr + (j + 1), List.replicate (j + 1) ⟨tag, args⟩⟩)) ∧
    (∀ j, j < ((rcnt.getD 5).toNat) →
      (∀ i, i < j → (env.w (ctr + i)).launchOk = true ∧
        (env.w (ctr + i)).returncode ≠ 0 ∧
        retry_eligible rcs ((env.w (ctr + i)).returncode) = true) →
      (env.w (ctr + j)).launchOk = true → (env.w (ctr + j)).returncode ≠ 0 →
      retry_eligible rcs ((env.w (ctr + j)).returncode) = false →
      run_process env tag args cap rcs rcnt ⟨ctr, []⟩ =
        (some (false, none),
         ⟨ctr + (j + 1), List.replicate (j + 1) ⟨tag, args⟩⟩)) ∧
    (run_process env tag args cap rcs rcnt ⟨ctr, []⟩).2.trace.length ≤
      ((rcnt.getD 5).toNat) := by
  refine ⟨?_, ?_, ?_, ?_, ?_, ?_⟩
  · intro h1 h2 h3
    rw [run_process_def]
    have hl := rp_loop_first_zero env.w rcs ((rcnt.getD 5).toNat)
      none ((⟨ctr, []⟩ : RunSt).ctr) h1 h2 h3
    rw [hl]
    simp [rp_result, h3]
  · intro h1 h2 h3 h4
    rw [run_process_def]
    have hl := rp_loop_first_noretry env.w rcs ((rcnt.getD 5).toNat)
      none ((⟨ctr, []⟩ : RunSt).ctr) h1 h2 h3 h4
    rw [hl]
    simp [rp_result, h3]
  · intro h1 hall
    rw [run_process_def]
    have hl := rp_loop_all_retry env.w rcs ((rcnt.getD 5).toNat)
      none ((⟨ctr, []⟩ : RunSt).ctr) h1 hall
    rw [hl]
    obtain ⟨-, hrc, -⟩ := hall (((rcnt.getD 5).toNat) - 1) (by omega)
    simp [rp_result, hrc]
  · intro j hj hall hl0 hz0
    rw [run_process_def]
    have hl := rp_loop_retry_then_zero env.w rcs j ((rcnt.getD 5).toNat)
      none ((⟨ctr, []⟩ : RunSt).ctr) hj hall hl0 hz0
    rw [hl]
    simp [rp_result, hz0]
  · intro j hj hall hl0 hnz hne
    rw [run_process_def]
    have hl := rp_loop_retry_then_noretry env.w rcs j ((rcnt.getD 5).toNat)
      none ((⟨ctr, []⟩ : RunSt).ctr) hj hall hl0 hnz hne
    rw [hl]
    simp [rp_result, hnz]
  · rw [run_process_def]
    simp only [List.nil_append, List.length_replicate]
    exact rp_loop_count_le env.w rcs ((rcnt.getD 5).toNat) none ctr

/-- C3 witness: immediate success, immediate non-retryable failure,
budget exhaustion on the retryable code, a retryable code followed by a
non-retryable one (failure after exactly two attempts), and the attempt
bound, on concrete worlds. -/
theorem claim_C3_witness :
    run_process envZero .final ["x"] true none none ⟨0, []⟩ =
      (some (true, some ""), ⟨1, [⟨.final, ["x"]⟩]⟩) ∧
    run_process envRC1 .final ["x"] false (some [10]) none ⟨0, []⟩ =
      (some (false, none), ⟨1, [⟨.final, ["x"]⟩]⟩) ∧
    run_process envRC10 .final ["x"] false (some [10]) none ⟨0, []⟩ =
      (some (false, none), ⟨5, List.replicate 5 ⟨.final, ["x"]⟩⟩) ∧
    run_process envRC10then23 .final ["x"] false (some [10]) none ⟨0, []⟩ =
      (some (false, none), ⟨2, List.replicate 2 ⟨.final, ["x"]⟩⟩) ∧
    (run_process envRC10 .final ["x"] false (some [10]) none ⟨0, []⟩).2.trace.length ≤ 5 :=
  ⟨(claim_C3 envZero .final ["x"] true none none 0).1 (by decide) rfl rfl,
   (claim_C3 envRC1 .final ["x"] false (some [10]) none 0).2.1 (by decide) rfl
     (by decide) (by decide),
   (claim_C3 envRC10 .final ["x"] false (some [10]) none 0).2.2.1 (by decide)
     (by
       intro i _
       have h10 : (envRC10.w (0 + i)).returncode = (10 : Int) := rfl
       refine ⟨rfl, ?_, ?_⟩
       · rw [h10]
         decide
       · rfl),
   (claim_C3 envRC10then23 .final ["x"] false (some [10]) none 0).2.2.2.2.1 1
     (by decide)
     (by
       intro i hi
       have hi0 : i = 0 := by omega
       subst hi0
       exact ⟨rfl, by decide, rfl⟩)
     rfl (by decide) rfl,
   (claim_C3 envRC10 .final ["x"] false (some [10]) none 0).2.2.2.2.2⟩

/-- C1: for a file-tree sync target with a configured precheck file, if the
precheck dry-run succeeds with empty captured output, the sync returns
success immediately and every invocation made is the precheck (no
first-stage, final-stage, or restorecon invocation). -/
theorem claim_C1 (env : Env) (remote dest : String) (bw : Int) (pf : String)
    (fse excl : Option (List String)) (ctr : Nat) (stEnd : RunSt)
    (hfs : (ensuredir (env.fs dest)).1 = true)
    (hpre : run_process env .precheck (precheck_args (norm_dir remote) (norm_dir dest) pf)
        true (some [10]) none ⟨ctr, []⟩ = (some (true, some ""), stEnd)) :
    rsync env remote dest bw (some pf) fse excl ⟨ctr, []⟩ = (some true, stEnd) ∧
    ∀ e ∈ stEnd.trace, e.tag = StageTag.precheck := by
  constructor
  · unfold rsync
    rw [if_neg (by simp [hfs])]
    dsimp only
    rw [hpre]
    rfl
  · obtain ⟨k, hk, -, -⟩ := run_process_state env .precheck
      (precheck_args (norm_dir remote) (norm_dir dest) pf) true (some [10]) none ⟨ctr, []⟩
    rw [hpre] at hk
    have hk2 : stEnd = ⟨ctr + k,
        List.replicate k ⟨.precheck, precheck_args (norm_dir remote) (norm_dir dest) pf⟩⟩ := hk
    intro e he
    rw [hk2] at he
    exact mem_replicate_tag e he

/-- C1 witness: in a world where the dry run exits 0 with empty output, the
sync succeeds after exactly the one precheck invocation. -/
theorem claim_C1_witness :
    rsync envZero "r" "d" 100 (some "f") none none ⟨0, []⟩ =
      (some true, ⟨1, [⟨.precheck, precheck_args (norm_dir "r") (norm_dir "d") "f"⟩]⟩) ∧
    ∀ e ∈ (⟨1, [⟨.precheck, precheck_args (norm_dir "r") (norm_dir "d") "f"⟩]⟩ : RunSt).trace,
      e.tag = StageTag.precheck :=
  claim_C1 envZero "r" "d" 100 "f" none none 0
    ⟨1, [⟨.precheck, precheck_args (norm_dir "r") (norm_dir "d") "f"⟩]⟩
    (by decide) (by decide)

/-- C2: in the transfer phase of the file-tree sync, a first-stage invocation
occurs exactly when firststage_exclude is truthy (a present nonempty list);
when the first stage runs and fails, the transfer returns failure and every
invocation made is the first stage (no final-stage invocation); and when no
precheck file is configured, the sync is exactly the transfer phase on
normalized paths. -/
theorem claim_C2 (env : Env) (remote dest : String) (bw : Int)
    (fse excl : Option (List String)) (ctr : Nat) :
    ((∃ e ∈ (rsync_transfer env remote dest bw fse excl ⟨ctr, []⟩).2.trace,
        e.tag = StageTag.stage1) ↔ truthy_list fse = true) ∧
    (∀ (p : String) (ps : List String) (st1 : RunSt), fse = some (p :: ps) →
      run_process env .stage1
          (common_args bw excl ++ (p :: ps).map (fun q => "--exclude=" ++ q) ++ [remote, dest])
          false (some [10]) none ⟨ctr, []⟩ = (some (false, none), st1) →
      rsync_transfer env remote dest bw fse excl ⟨ctr, []⟩ = (some false, st1) ∧
      ∀ e ∈ st1.trace, e.tag = StageTag.stage1) ∧
    (∀ st : RunSt, (ensuredir (env.fs dest)).1 = true →
      rsync env remote dest bw none fse excl st =
        rsync_transfer env (norm_dir remote) (norm_dir dest) bw fse excl st) := by
  refine ⟨rsync_transfer_stage1_iff env remote dest bw fse excl ctr, ?_, ?_⟩
  · intro p ps st1 hfse hrun
    subst hfse
    constructor
    · rw [rsync_transfer_fse_cons, hrun]
    · obtain ⟨k, hk, -, -⟩ := run_process_state env .stage1
        (common_args bw excl ++ (p :: ps).map (fun q => "--exclude=" ++ q) ++ [remote, dest])
        false (some [10]) none ⟨ctr, []⟩
      rw [hrun] at hk
      have hk2 : st1 = ⟨ctr + k, List.replicate k
          ⟨.stage1, common_args bw excl ++ (p :: ps).map (fun q => "--exclude=" ++ q) ++
            [remote, dest]⟩⟩ := hk
      intro e he
      rw [hk2] at he
      exact mem_replicate_tag e he
  · intro st hfs
    unfold rsync
    rw [if_neg (by simp [hfs])]

/-- C2 witness: a failing first stage on a concrete world yields failure
after exactly the one first-stage invocation, and the no-precheck sync equals
the transfer phase. -/
theorem claim_C2_witness :
    rsync_transfer envRC1 "r/" "d/" 100 (some ["a"]) none ⟨0, []⟩ =
      (some false,
       ⟨1, [⟨.stage1, common_args 100 none ++ ["--exclude=a"] ++ ["r/", "d/"]⟩]⟩) ∧
    rsync envRC1 "r" "d" 100 none (some ["a"]) none ⟨0, []⟩ =
      rsync_transfer envRC1 (norm_dir "r") (norm_dir "d") 100 (some ["a"]) none ⟨0, []⟩ :=
  ⟨((claim_C2 envRC1 "r/" "d/" 100 (some ["a"]) none 0).2.1 "a" []
      ⟨1, [⟨.stage1, common_args 100 none ++ ["--exclude=a"] ++ ["r/", "d/"]⟩]⟩
      rfl (by decide)).1,
   (claim_C2 envRC1 "r" "d" 100 (some ["a"]) none 0).2.2 ⟨0, []⟩ (by decide)⟩

/-- C6 counterexample: on a Red-Hat-family host, a failing debmirror transfer
is NOT followed by a security-context restoration invocation — the code gates
restorecon on success in the archive-mirror strategy too, contrary to the
claim. -/
theorem claim_C6_counterexample :
    is_redhat_based envRC1.redhatRelease = true ∧
    (debmirror envRC1 "h" "rd" "d" ["x"] ["a"] ["s"] 100 ⟨0, []⟩).1 = some false ∧
    ((debmirror envRC1 "h" "rd" "d" ["x"] ["a"] ["s"] 100 ⟨0, []⟩).2.trace.all
      (fun e => !(e.tag == StageTag.restorecon))) = true := by
  decide

/-- C6 amended: in BOTH strategies the security-context restoration is
invoked if and only if the transfer reported success on a Red-Hat-family
host; the archive-mirror strategy has the same gating as the file-tree
strategy. -/
theorem claim_C6_amended (env : Env) (host remote_dir dest : String)
    (dists arch sections : List String) (bw : Int) (cargs : List String)
    (remote2 dest2 : String) (ctr ctr2 : Nat) :
    ((∃ e ∈ (debmirror env host remote_dir dest dists arch sections bw ⟨ctr, []⟩).2.trace,
        e.tag = StageTag.restorecon) ↔
      ((debmirror env host remote_dir dest dists arch sections bw ⟨ctr, []⟩).1 = some true ∧
        is_redhat_based env.redhatRelease = true)) ∧
    ((∃ e ∈ (rsync_final env cargs remote2 dest2 ⟨ctr2, []⟩).2.trace,
        e.tag = StageTag.restorecon) ↔
      ((rsync_final env cargs remote2 dest2 ⟨ctr2, []⟩).1 = some true ∧
        is_redhat_based env.redhatRelease = true)) :=
  ⟨debmirror_restorecon_iff env host remote_dir dest dists arch sections bw ctr,
   rsync_final_restorecon_iff env cargs remote2 dest2 ctr2⟩

/-- C7: if the DEFAULT section configures a user different from the current
effective user, the run never reports success, no target section is
attempted, and no process invocation occurs. -/
theorem claim_C7 (env : Env) (cfg : MirrorConfig)
    (hhas : cfgHas cfg.defaults "user" = true)
    (hne : cfgGet cfg.defaults "user" ≠ env.currentUser) :
    (mirror env cfg).result ≠ some true ∧
    (mirror env cfg).attempted = [] ∧
    (mirror env cfg).st.trace = [] := by
  unfold mirror
  split
  · exact ⟨by simp, rfl, rfl⟩
  · split
    · exact ⟨by simp, rfl, rfl⟩
    next bwv hb =>
      rw [if_pos (by simp [hhas, hne])]
      exact ⟨by simp, rfl, rfl⟩

/-- C7 witness: a config demanding user svc-mirror while running as root
aborts with failure before any target. -/
theorem claim_C7_witness :
    (mirror envZero cfgUserMismatch).result ≠ some true ∧
    (mirror envZero cfgUserMismatch).attempted = [] ∧
    (mirror envZero cfgUserMismatch).st.trace = [] :=
  claim_C7 envZero cfgUserMismatch (by decide) (by decide)

/-- C10: a target section with no name key always fails (it is rejected
before any dispatch, with no process invocation and no state change), its
display name falls back to the section label, and the coordinator records the
section label in the failure list. -/
theorem claim_C10 (env : Env) (sect : Sect) (label : String) (bw : Int) (st : RunSt)
    (hname : cfgHas sect "name" = false) :
    mirror_sect env sect label bw st = (some false, st) ∧
    displayName label sect = label ∧
    ∀ rest : List (String × Sect), label ≠ "DEFAULT" →
      (∀ p ∈ rest, p.1 ≠ "DEFAULT") → (∀ p ∈ rest, sect_raises p.2 = false) →
      label ∈ (mirror env ⟨true, [], (label, sect) :: rest⟩).failed := by
  have hdn : displayName label sect = label := by
    unfold displayName
    rw [if_neg (by simp [hname])]
  refine ⟨mirror_sect_missing env sect label bw st (Or.inl hname), hdn, ?_⟩
  intro rest hD hDr hRr
  have hhead : mirror_sect env (sect ++ []) label 100 ⟨0, []⟩ = (some false, ⟨0, []⟩) := by
    rw [List.append_nil]
    exact mirror_sect_missing env sect label 100 ⟨0, []⟩ (Or.inl hname)
  obtain ⟨failedR, outsR, stR, hm⟩ :=
    mirror_head_some_false env label sect rest hD hDr hRr hhead
  rw [hm]
  have hdn2 : displayName label (sect ++ []) = label := by
    rw [List.append_nil, hdn]
  rw [hdn2]
  exact List.mem_cons_self _ _

/-- C10 witness: a nameless rsync section fails with no invocation and is
recorded in the failure list under its label. -/
theorem claim_C10_witness :
    mirror_sect envZero sectNoName "s" 100 ⟨0, []⟩ = (some false, ⟨0, []⟩) ∧
    displayName "s" sectNoName = "s" ∧
    "s" ∈ (mirror envZero ⟨true, [], [("s", sectNoName), ("b", sectRsyncB)]⟩).failed :=
  have h := claim_C10 envZero sectNoName "s" 100 ⟨0, []⟩ (by decide)
  ⟨h.1, h.2.1, h.2.2 [("b", sectRsyncB)] (by decide) (by decide) (by decide)⟩

/-- C5 counterexample: a debmirror target that passes the five presence
checks but is missing deb_dists raises an uncaught KeyError: the whole run is
aborted (result none) and the following target is never attempted — contrary
to the claim that a missing required field fails that target only. -/
theorem claim_C5_counterexample :
    (mirror envZero cfgDebThenGood).result = none ∧
    (mirror envZero cfgDebThenGood).attempted = ["a"] := by
  decide

/-- C5 amended: a target section missing one of the CHECKED required fields
(name, type, host, remote_dir, dest) is a failure for that target only — no
exception, no state change — and the coordinator still attempts the
remaining targets and records the target in the failure list. (A debmirror
section missing deb_dists/deb_arch/deb_sections instead raises and aborts the
run, per the counterexample.) -/
theorem claim_C5_amended (env : Env) (sect : Sect) (label : String) (bw : Int)
    (st : RunSt)
    (hmiss : cfgHas sect "name" = false ∨ cfgHas sect "type" = false ∨
      cfgHas sect "host" = false ∨ cfgHas sect "remote_dir" = false ∨
      cfgHas sect "dest" = false) :
    mirror_sect env sect label bw st = (some false, st) ∧
    ∀ rest : List (String × Sect), label ≠ "DEFAULT" →
      (∀ p ∈ rest, p.1 ≠ "DEFAULT") → (∀ p ∈ rest, sect_raises p.2 = false) →
      (mirror env ⟨true, [], (label, sect) :: rest⟩).attempted =
        label :: rest.map Prod.fst ∧
      displayName label (sect ++ []) ∈
        (mirror env ⟨true, [], (label, sect) :: rest⟩).failed := by
  refine ⟨mirror_sect_missing env sect label bw st hmiss, ?_⟩
  intro rest hD hDr hRr
  have hhead : mirror_sect env (sect ++ []) label 100 ⟨0, []⟩ = (some false, ⟨0, []⟩) := by
    rw [List.append_nil]
    exact mirror_sect_missing env sect label 100 ⟨0, []⟩ hmiss
  obtain ⟨failedR, outsR, stR, hm⟩ :=
    mirror_head_some_false env label sect rest hD hDr hRr hhead
  rw [hm]
  exact ⟨rfl, List.mem_cons_self _ _⟩

/-- C5 witness: a section missing dest fails alone; the next target is still
attempted and the failing target is recorded. -/
theorem claim_C5_witness :
    mirror_sect envZero sectNoDest "c" 100 ⟨0, []⟩ = (some false, ⟨0, []⟩) ∧
    (mirror envZero ⟨true, [], [("c", sectNoDest), ("b", sectRsyncB)]⟩).attempted =
      ["c", "b"] ∧
    displayName "c" (sectNoDest ++ []) ∈
      (mirror envZero ⟨true, [], [("c", sectNoDest), ("b", sectRsyncB)]⟩).failed :=
  have h := claim_C5_amended envZero sectNoDest "c" 100 ⟨0, []⟩ (by decide)
  have h2 := h.2 [("b", sectRsyncB)] (by decide) (by decide) (by decide)
  ⟨h.1, h2.1, h2.2⟩

/-- C4 counterexample: with a raising debmirror target first, the coordinator
does NOT attempt every configured section (the run aborts with an uncaught
exception before the second target and produces no failure-list verdict) —
contrary to the claim as stated for every configuration. -/
theorem claim_C4_counterexample :
    (mirror envZero cfgDebThenGood).result = none ∧
    (mirror envZero cfgDebThenGood).attempted ≠ cfgDebThenGood.sections.map Prod.fst := by
  decide

/-- C4 amended: whenever the coordinator reaches its per-target loop (config
read succeeded, any configured bwlimit parses, any configured user matches)
and no section raises an uncaught exception (no debmirror section with
missing deb lists), it attempts every configured (non-DEFAULT-labelled)
section in order, the failure list is exactly the display names of the
targets whose sync returned failure in configuration order, and the overall
result is success if and only if that list is empty. -/
theorem claim_C4_amended (env : Env) (cfg : MirrorConfig)
    (hread : cfg.readOk = true)
    (hbw : cfgHas cfg.defaults "bwlimit" = false ∨
      (pyInt (cfgGet cfg.defaults "bwlimit")).isSome = true)
    (huser : cfgHas cfg.defaults "user" = false ∨
      cfgGet cfg.defaults "user" = env.currentUser)
    (hD : ∀ p ∈ cfg.sections, p.1 ≠ "DEFAULT")
    (hR : ∀ p ∈ cfg.sections, sect_raises (p.2 ++ cfg.defaults) = false) :
    (mirror env cfg).result = some ((mirror env cfg).failed.isEmpty) ∧
    (mirror env cfg).attempted = cfg.sections.map Prod.fst ∧
    (mirror env cfg).outcomes.map Prod.fst =
      cfg.sections.map (fun p => displayName p.1 (p.2 ++ cfg.defaults)) ∧
    (mirror env cfg).failed =
      ((mirror env cfg).outcomes.filter (fun p => !p.2)).map Prod.fst :=
  mirror_ok env cfg hread hbw huser hD hR

/-- C4 witness: a single failing rsync target yields a failure verdict with
the failure list holding exactly its display name. -/
theorem claim_C4_witness :
    (mirror envRC1 ⟨true, [], [("b", sectRsyncB)]⟩).result =
      some ((mirror envRC1 ⟨true, [], [("b", sectRsyncB)]⟩).failed.isEmpty) ∧
    (mirror envRC1 ⟨true, [], [("b", sectRsyncB)]⟩).attempted = ["b"] ∧
    (mirror envRC1 ⟨true, [], [("b", sectRsyncB)]⟩).outcomes.map Prod.fst = ["B"] ∧
    (mirror envRC1 ⟨true, [], [("b", sectRsyncB)]⟩).failed =
      ((mirror envRC1 ⟨true, [], [("b", sectRsyncB)]⟩).outcomes.filter
        (fun p => !p.2)).map Prod.fst :=
  have h := claim_C4_amended envRC1 ⟨true, [], [("b", sectRsyncB)]⟩ rfl
    (Or.inl rfl) (Or.inl rfl) (by decide) (by decide)
  ⟨h.1, h.2.1, h.2.2.1, h.2.2.2⟩

end Mirror
